import Mathlib

/-!
Verification development for the profile identity and multi-tier persistence
layer of the astrology MCP server (`mcp-bearer-token/puch_astro_mcp.py`).

The Python source is embedded shallowly: pure helpers become Lean functions,
the module-level fallback dictionary becomes explicit state passing, network
and AI calls become oracle parameters describing the outcome of the single
request each operation performs, and `raise McpError` becomes `Except.error`.
-/

/-- Python `str.lower` on one character (ASCII fragment). -/
def pyLowerChar (c : Char) : Char :=
  if 'A' ≤ c ∧ c ≤ 'Z' then Char.ofNat (c.toNat + 32) else c

/-- Python `str.lower` (ASCII fragment). -/
def pyLower (s : String) : String := ⟨s.data.map pyLowerChar⟩

/-- Whitespace characters recognised by Python `str.strip` (ASCII fragment). -/
def pyIsSpace (c : Char) : Bool :=
  c == ' ' || c == '\t' || c == '\n' || c == '\r' || c == '\x0B' || c == '\x0C'

/-- Python `str.strip`: drop leading and trailing whitespace. -/
def pyStrip (s : String) : String :=
  ⟨((s.data.dropWhile pyIsSpace).reverse.dropWhile pyIsSpace).reverse⟩

/-- The normalization the source applies to `name` and `place`:
`x.lower().strip()`. -/
def pyNormalize (s : String) : String := pyStrip (pyLower s)

/-- UTF-8 encoding of one character, as byte values. -/
def utf8Bytes (c : Char) : List Nat :=
  let n := c.toNat
  if n < 128 then [n]
  else if n < 2048 then [192 + n / 64, 128 + n % 64]
  else if n < 65536 then [224 + n / 4096, 128 + n / 64 % 64, 128 + n % 64]
  else [240 + n / 262144, 128 + n / 4096 % 64, 128 + n / 64 % 64, 128 + n % 64]

/-- Python `str.encode()`: the UTF-8 bytes of a string. -/
def utf8Encode (s : String) : List Nat := (s.data.map utf8Bytes).flatten

/-- The 64 sine-derived MD5 round constants (RFC 1321). -/
def md5K : List Nat :=
  [0xd76aa478, 0xe8c7b756, 0x242070db, 0xc1bdceee,
   0xf57c0faf, 0x4787c62a, 0xa8304613, 0xfd469501,
   0x698098d8, 0x8b44f7af, 0xffff5bb1, 0x895cd7be,
   0x6b901122, 0xfd987193, 0xa679438e, 0x49b40821,
   0xf61e2562, 0xc040b340, 0x265e5a51, 0xe9b6c7aa,
   0xd62f105d, 0x02441453, 0xd8a1e681, 0xe7d3fbc8,
   0x21e1cde6, 0xc33707d6, 0xf4d50d87, 0x455a14ed,
   0xa9e3e905, 0xfcefa3f8, 0x676f02d9, 0x8d2a4c8a,
   0xfffa3942, 0x8771f681, 0x6d9d6122, 0xfde5380c,
   0xa4beea44, 0x4bdecfa9, 0xf6bb4b60, 0xbebfbc70,
   0x289b7ec6, 0xeaa127fa, 0xd4ef3085, 0x04881d05,
   0xd9d4d039, 0xe6db99e5, 0x1fa27cf8, 0xc4ac5665,
   0xf4292244, 0x432aff97, 0xab9423a7, 0xfc93a039,
   0x655b59c3, 0x8f0ccc92, 0xffeff47d, 0x85845dd1,
   0x6fa87e4f, 0xfe2ce6e0, 0xa3014314, 0x4e0811a1,
   0xf7537e82, 0xbd3af235, 0x2ad7d2bb, 0xeb86d391]

/-- The 64 per-round left-rotation amounts of MD5. -/
def md5S : List Nat :=
  [7, 12, 17, 22, 7, 12, 17, 22, 7, 12, 17, 22, 7, 12, 17, 22,
   5, 9, 14, 20, 5, 9, 14, 20, 5, 9, 14, 20, 5, 9, 14, 20,
   4, 11, 16, 23, 4, 11, 16, 23, 4, 11, 16, 23, 4, 11, 16, 23,
   6, 10, 15, 21, 6, 10, 15, 21, 6, 10, 15, 21, 6, 10, 15, 21]

/-- 32-bit left rotation (operands kept below 2 ^ 32). -/
def rotl32 (x n : Nat) : Nat := ((x <<< n) ||| (x >>> (32 - n))) % 4294967296

/-- The four 32-bit MD5 accumulator words. -/
structure MD5State where
  a : Nat
  b : Nat
  c : Nat
  d : Nat
deriving DecidableEq

/-- Little-endian byte decomposition, `k` bytes. -/
def toLEBytes : Nat → Nat → List Nat
  | 0, _ => []
  | k + 1, n => n % 256 :: toLEBytes k (n / 256)

/-- Little-endian 32-bit word number `g` of a 64-byte chunk. -/
def leWord (chunk : List Nat) (g : Nat) : Nat :=
  chunk.getD (4 * g) 0 + 256 * chunk.getD (4 * g + 1) 0 +
    65536 * chunk.getD (4 * g + 2) 0 + 16777216 * chunk.getD (4 * g + 3) 0

/-- One of the 64 MD5 rounds. -/
def md5Round (chunk : List Nat) (st : MD5State) (i : Nat) : MD5State :=
  let fg : Nat × Nat :=
    if i < 16 then ((st.b &&& st.c) ||| ((st.b ^^^ 4294967295) &&& st.d), i)
    else if i < 32 then
      ((st.d &&& st.b) ||| ((st.d ^^^ 4294967295) &&& st.c), (5 * i + 1) % 16)
    else if i < 48 then (st.b ^^^ st.c ^^^ st.d, (3 * i + 5) % 16)
    else (st.c ^^^ (st.b ||| (st.d ^^^ 4294967295)), (7 * i) % 16)
  let f := (fg.1 + st.a + md5K.getD i 0 + leWord chunk fg.2) % 4294967296
  ⟨st.d, (st.b + rotl32 f (md5S.getD i 0)) % 4294967296, st.b, st.c⟩

/-- Fold one 64-byte chunk into the MD5 state. -/
def md5Chunk (st : MD5State) (chunk : List Nat) : MD5State :=
  let r := (List.range 64).foldl (md5Round chunk) st
  ⟨(st.a + r.a) % 4294967296, (st.b + r.b) % 4294967296,
   (st.c + r.c) % 4294967296, (st.d + r.d) % 4294967296⟩

/-- MD5 padding: a 0x80 byte, zeros up to 56 mod 64, then the original bit
length as eight little-endian bytes. -/
def md5Pad (msg : List Nat) : List Nat :=
  msg ++ 128 :: (List.replicate ((119 - msg.length % 64) % 64) 0 ++
    toLEBytes 8 (msg.length * 8 % 18446744073709551616))

/-- Chunk loop, driven by a fuel bound on the remaining byte count. -/
def md5Chunks : Nat → MD5State → List Nat → MD5State
  | 0, st, _ => st
  | _ + 1, st, [] => st
  | fuel + 1, st, b :: rest =>
      md5Chunks fuel (md5Chunk st ((b :: rest).take 64)) ((b :: rest).drop 64)

/-- The 16-byte MD5 digest of a byte list. -/
def md5Digest (msg : List Nat) : List Nat :=
  let padded := md5Pad msg
  let st := md5Chunks padded.length
    ⟨1732584193, 4023233417, 2562383102, 271733878⟩ padded
  toLEBytes 4 st.a ++ toLEBytes 4 st.b ++ toLEBytes 4 st.c ++ toLEBytes 4 st.d

/-- Lowercase hexadecimal digit for a nibble. -/
def hexChar (n : Nat) : Char := "0123456789abcdef".data.getD n '0'

/-- The two hex characters of one byte, high nibble first. -/
def byteHex (b : Nat) : List Char := [hexChar (b / 16 % 16), hexChar (b % 16)]

/-- Python `hashlib.md5(raw).hexdigest()`, as a character list. -/
def md5Hexdigest (msg : List Nat) : List Char :=
  ((md5Digest msg).map byteHex).flatten

/-- `generate_profile_id` from the source: the md5 hexdigest of the
underscore-delimited normalized birth facts, truncated to 12 characters.
`name` and `place` pass through `.lower().strip()`; `dob` and `time` are
used verbatim. -/
def generate_profile_id (name dob time place : String) : String :=
  let raw := pyNormalize name ++ "_" ++ dob ++ "_" ++ time ++ "_" ++
    pyNormalize place
  ⟨(md5Hexdigest (utf8Encode raw)).take 12⟩

/-- A stored profile record (the dictionary built by the tools; `session_id`
is absent in the record built by `astro_ask`, modelled as `none`). -/
structure Profile where
  profile_id : String
  name : String
  dob : String
  time : String
  place : String
  created_at : String
  session_id : Option String := none
deriving DecidableEq

/-- The error raised by the source via `McpError(ErrorData(INTERNAL_ERROR,
message))`; the code is always `INTERNAL_ERROR`, so only the message is
modelled. -/
structure McpErr where
  message : String
deriving DecidableEq

/-- The parsed JSON body of an n8n webhook response, restricted to the keys
the source reads: `status` and `profile_id` (produced by the synthetic
`set_active_session` response) and `profile` (read by the resolver). -/
structure StoreResponse where
  status : Option String := none
  profile_id : Option String := none
  profile : Option Profile := none
deriving DecidableEq

/-- Outcome of the single HTTP POST a storage call performs: either the
transport raised (`httpx.HTTPError`, carrying its repr text), or a response
arrived with a status code, a body text, and, when the body is valid JSON,
its parsed form. -/
inductive HttpResult where
  | transportError (msg : String)
  | response (status : Nat) (body : String) (json : Option StoreResponse)
deriving DecidableEq

/-- `QdrantStorage._call_n8n`: wrap a transport failure, an error status, or
a non-JSON body as a storage `McpErr`; otherwise return the parsed body. -/
def call_n8n (http : HttpResult) : Except McpErr StoreResponse :=
  match http with
  | .transportError e =>
      .error ⟨"Failed to reach Qdrant storage: " ++ e⟩
  | .response status body json =>
      if status ≥ 400 then
        .error ⟨"Storage error " ++ toString status ++ ": " ++ body.take 300⟩
      else
        match json with
        | none => .error ⟨"Storage did not return valid JSON"⟩
        | some r => .ok r

/-- `QdrantStorage.store_profile`: fail fast when `N8N_WEBHOOK_URL` is not
configured, otherwise perform the webhook call. -/
def store_profile (cfg : Option String) (http : HttpResult) :
    Except McpErr StoreResponse :=
  match cfg with
  | none => .error ⟨"N8N_WEBHOOK_URL required for persistent storage"⟩
  | some _ => call_n8n http

/-- `QdrantStorage.get_profile`: fail fast when `N8N_WEBHOOK_URL` is not
configured, otherwise perform the webhook call. -/
def get_profile (cfg : Option String) (http : HttpResult) :
    Except McpErr StoreResponse :=
  match cfg with
  | none => .error ⟨"N8N_WEBHOOK_URL required for persistent storage"⟩
  | some _ => call_n8n http

/-- `QdrantStorage.set_active_session`: when `N8N_WEBHOOK_URL` is not
configured this returns a synthetic success dictionary without any network
call; otherwise it performs the webhook call. -/
def set_active_session (cfg : Option String) (pid : String)
    (http : HttpResult) : Except McpErr StoreResponse :=
  match cfg with
  | none => .ok ⟨some "session_set", some pid, none⟩
  | some _ => call_n8n http

/-- The module-level `_fallback_profiles` dictionary, as a keyed map. -/
def FallbackStore : Type := String → Option Profile

/-- Write one key of the fallback store (`_fallback_profiles[pid] = p`). -/
def FallbackStore.put (fb : FallbackStore) (pid : String) (p : Profile) :
    FallbackStore :=
  fun k => if k = pid then some p else fb k

/-- `_get_profile_by_id`: when a webhook URL is configured, try
`get_profile`; a successful response carrying a `profile` key resolves
directly, and any failure or missing payload falls through to the fallback
dictionary. Without a configured URL only the fallback dictionary is read. -/
def get_profile_by_id (cfg : Option String) (http : HttpResult)
    (fb : FallbackStore) (pid : String) : Option Profile :=
  match cfg with
  | some _ =>
      match get_profile cfg http with
      | .ok r =>
          match r.profile with
          | some p => some p
          | none => fb pid
      | .error _ => fb pid
  | none => fb pid

/-- Outcome of the single OpenAI chat-completions request made by
`get_astrology_insights`: the client raised, the response had no usable
content, or it produced text. -/
inductive OpenAIResult where
  | failure (msg : String)
  | empty
  | content (text : String)
deriving DecidableEq

/-- `_create_astrology_prompt`: the user prompt sent to the model, built
from the birth facts and the optional question and timeframe. -/
def create_astrology_prompt (name birth_info : String)
    (question timeframe : Option String) : String :=
  match question with
  | some q =>
      "You are an expert Vedic astrologer. The current year is 2025. Provide personalized astrological insights for:\n\n" ++
      "Name: " ++ name ++ "\nBirth Details: " ++ birth_info ++
      "\nQuestion: " ++ q ++
      "\nTimeframe: " ++ timeframe.getD "General guidance" ++
      "\n\nPlease provide:\n1. A personalized astrological analysis based on their birth details\n2. Specific insights related to their question\n3. Practical guidance and recommendations\n4. Timing considerations if relevant\n\nUse Vedic astrology principles and be specific, insightful, and encouraging."
  | none =>
      "You are an expert Vedic astrologer. The current year is 2025. Create a comprehensive birth chart analysis for:\n\n" ++
      "Name: " ++ name ++ "\nBirth Details: " ++ birth_info ++
      "\n\nPlease provide:\n1. Overall personality traits based on their birth date\n2. Key strengths and potential challenges\n3. Life purpose and dharma\n4. Recommendations for growth and success\n5. Auspicious periods and general timing guidance\n\nUse Vedic astrology principles and be detailed, personalized, and encouraging."

/-- `get_astrology_insights`: total by construction — every exception from
the OpenAI call is caught and rendered as an apologetic message, a missing
client yields a fixed unavailability message, and an empty response yields a
fixed retry message. `client` tells whether `_ensure_openai_client`
produced a client; `ai` maps the user prompt to the outcome of the single
chat-completions request. -/
def get_astrology_insights (client : Bool) (ai : String → OpenAIResult)
    (name dob time_str place : String)
    (question timeframe : Option String) : String :=
  let birth_info := "Born on " ++ dob ++ " at " ++ time_str ++ " in " ++ place
  if !client then
    "AI-powered astrological insights are currently unavailable. Please check your OpenAI API configuration."
  else
    match ai (create_astrology_prompt name birth_info question timeframe) with
    | .failure e =>
        "Sorry, I'm unable to provide astrological insights at the moment due to a technical issue: " ++ e
    | .empty =>
        "Sorry, I couldn't generate astrological insights at this time. Please try again."
    | .content t =>
        "**AI-Powered Astrological Insights for " ++ name ++ "**\n\n" ++ t ++
          "\n\n---\n*Generated using advanced AI analysis of your birth details: " ++
          birth_info ++ "*"

/-- What `astro_register_profile` produces: the derived identifier, the
`storage_info` tier label embedded in the summary, the summary text of the
returned `TextContent`, and the fallback dictionary after the call. -/
structure RegResult where
  profile_id : String
  storage_info : String
  summary : String
  store : FallbackStore

/-- `astro_register_profile`. Oracles: `cfg` is `N8N_WEBHOOK_URL`,
`storeHttp` and `setHttp` the outcomes of the `store_profile` and
`set_active_session` webhook calls, `client`/`ai` the insight generator
inputs, `now` the `datetime.now().isoformat()` text. The body never raises,
so the `except` re-raise wrapper of the source is the unreachable `.error`
branch of the return type. -/
def astro_register_profile (cfg : Option String)
    (storeHttp setHttp : HttpResult) (client : Bool)
    (ai : String → OpenAIResult) (now : String) (fb : FallbackStore)
    (name dob time place : String) (session_id : Option String) :
    Except McpErr RegResult :=
  let profile_id := generate_profile_id name dob time place
  let profile_data : Profile :=
    ⟨profile_id, name, dob, time, place, now, session_id⟩
  let step : String × FallbackStore :=
    match cfg with
    | some _ =>
        match store_profile cfg storeHttp with
        | .ok _ =>
            -- session mapping is attempted only when a session id is given,
            -- and its outcome is discarded (`try ... except: pass`)
            let _ := match session_id with
              | some _ => some (set_active_session cfg profile_id setHttp)
              | none => none
            ("Stored in Qdrant (persistent memory)", fb)
        | .error e =>
            ("Fallback storage used: " ++ e.message.take 50 ++ "...",
              fb.put profile_id profile_data)
    | none =>
        ("In-memory storage (will reset on restart)",
          fb.put profile_id profile_data)
  let insights := get_astrology_insights client ai name dob time place
    none none
  let summary :=
    "**Profile Registered Successfully!**\n\n**Profile ID**: " ++ profile_id ++
    "\n**Name**: " ++ name ++
    "\n**Birth**: " ++ dob ++ " at " ++ time ++
    "\n**Place**: " ++ place ++
    "\n**Storage**: " ++ step.1 ++
    "\n\n" ++ insights ++
    "\n\nNow you can ask specific astrological questions using your registered profile!"
  .ok ⟨profile_id, step.1, summary, step.2⟩

/-- Python truthiness of an optional string argument: present and
non-empty. -/
def truthy : Option String → Bool
  | none => false
  | some s => !s.isEmpty

/-- What `astro_ask` produces: the text of the returned `TextContent`, the
fallback dictionary after the call, and, when the auto-registration branch
ran, the `storage_info` tier label it reported. -/
structure AskResult where
  text : String
  store : FallbackStore
  storage_info : Option String := none

/-- The static guidance message `astro_ask` returns when no profile resolves
and the supplied birth facts are incomplete. -/
def welcome_message : String :=
  "**Welcome to AI Astrology!**\n\n" ++
  "To provide personalized insights, I need your birth details. Simply provide them with your question and I'll automatically create your profile:\n\n" ++
  "**Example**: \"What does my career look like?\"\n" ++
  "- Name: John Smith\n" ++
  "- DOB: 1990-05-15\n" ++
  "- Time: 14:30\n" ++
  "- Place: Mumbai, India\n\n" ++
  "Or use `astro_register_profile` to create your profile first.\n\n" ++
  "Once you provide your birth details, they'll be saved for all future questions!"

/-- `astro_ask`. Oracles as in `astro_register_profile`; `getHttp` is the
outcome of the resolver webhook call and `storeHttp` of the
auto-registration `store_profile` call. An explicit, resolvable
`profile_id` answers directly; otherwise complete non-empty birth facts
auto-register (note: this branch calls `store_profile` even when no webhook
URL is configured, so the unconfigured case takes the exception-fallback
path); otherwise the static guidance message is returned. -/
def astro_ask (cfg : Option String) (getHttp storeHttp : HttpResult)
    (client : Bool) (ai : String → OpenAIResult) (now : String)
    (fb : FallbackStore)
    (question : String) (name dob time place : Option String)
    (timeframe : Option String) (profile_id : Option String) :
    Except McpErr AskResult :=
  let afterResolve : Except McpErr AskResult :=
    if truthy name && truthy dob && truthy time && truthy place then
      let n := name.getD ""
      let d := dob.getD ""
      let t := time.getD ""
      let p := place.getD ""
      let pid := generate_profile_id n d t p
      let profile_data : Profile := ⟨pid, n, d, t, p, now, none⟩
      let step : String × FallbackStore :=
        match store_profile cfg storeHttp with
        | .ok _ => ("Stored in Qdrant (persistent memory)", fb)
        | .error e =>
            ("Fallback storage used: " ++ e.message.take 50 ++ "...",
              fb.put pid profile_data)
      let insights := get_astrology_insights client ai n d t p
        (some question) timeframe
      let note :=
        "\n\n---\nProfile Created! Your birth details have been saved for future questions. Profile ID: `" ++
        pid ++ "`\n**Storage**: " ++ step.1
      .ok ⟨insights ++ note, step.2, some step.1⟩
    else
      .ok ⟨welcome_message, fb, none⟩
  if truthy profile_id then
    match get_profile_by_id cfg getHttp fb (profile_id.getD "") with
    | some profile =>
        .ok ⟨get_astrology_insights client ai profile.name profile.dob
          profile.time profile.place (some question) timeframe, fb, none⟩
    | none => afterResolve
  else
    afterResolve

/-- Projection of a register outcome, with a dummy value on the (in this
embedding unreachable) error branch. -/
def regOut (x : Except McpErr RegResult) : RegResult :=
  match x with
  | .ok r => r
  | .error _ => ⟨"", "", "", fun _ => none⟩

/-- Projection of an ask outcome, with a dummy value on the (in this
embedding unreachable) error branch. -/
def askOut (x : Except McpErr AskResult) : AskResult :=
  match x with
  | .ok r => r
  | .error _ => ⟨"", fun _ => none, none⟩

/-- Whether a tool call returned normally rather than raising. -/
def isOkE {α : Type} (x : Except McpErr α) : Bool :=
  match x with
  | .ok _ => true
  | .error _ => false

/-! ## Helper lemmas -/

/-- A character of the lowercase hexadecimal alphabet. -/
def isHexChar (c : Char) : Bool := "0123456789abcdef".data.contains c

theorem truthy_some_of_ne {s : String} (h : s ≠ "") :
    truthy (some s) = true := by
  have h0 : s.isEmpty = false := by
    rw [← Bool.not_eq_true, String.isEmpty_iff]
    exact h
  simp [truthy, h0]

theorem toLEBytes_length (k n : Nat) : (toLEBytes k n).length = k := by
  induction k generalizing n with
  | zero => rfl
  | succ k ih => simp [toLEBytes, ih]

theorem md5Digest_length (msg : List Nat) : (md5Digest msg).length = 16 := by
  simp [md5Digest, toLEBytes_length]

theorem byteHex_flatten_length (l : List Nat) :
    ((l.map byteHex).flatten).length = 2 * l.length := by
  induction l with
  | nil => rfl
  | cons b rest ih => simp [byteHex, ih]; omega

theorem md5Hexdigest_length (msg : List Nat) :
    (md5Hexdigest msg).length = 32 := by
  rw [md5Hexdigest, byteHex_flatten_length, md5Digest_length]

theorem hexChar_isHexChar (n : Nat) (h : n < 16) :
    isHexChar (hexChar n) = true := by
  interval_cases n <;> decide

theorem byteHex_isHexChar (b : Nat) (c : Char) (h : c ∈ byteHex b) :
    isHexChar c = true := by
  simp [byteHex] at h
  rcases h with h | h <;> subst h <;>
    exact hexChar_isHexChar _ (Nat.mod_lt _ (by norm_num))

theorem md5Hexdigest_isHexChar (msg : List Nat) (c : Char)
    (h : c ∈ md5Hexdigest msg) : isHexChar c = true := by
  simp only [md5Hexdigest, List.mem_flatten, List.mem_map] at h
  rcases h with ⟨l, ⟨b, _, rfl⟩, hc⟩
  exact byteHex_isHexChar b c hc

/-! ## C1 -/

/-- C1: `generate_profile_id` is a pure total function of the normalized
birth facts: for all string inputs it returns a 12-character id made of
hexadecimal characters, and any two name/place inputs with equal
`.lower().strip()` normalizations (dob and time used verbatim) yield the
identical id; determinism is immediate since it is a function. -/
theorem generate_profile_id_normalized
    (name name' place place' dob time : String)
    (hn : pyNormalize name = pyNormalize name')
    (hp : pyNormalize place = pyNormalize place') :
    generate_profile_id name dob time place
      = generate_profile_id name' dob time place' ∧
    (generate_profile_id name dob time place).length = 12 ∧
    ∀ c ∈ (generate_profile_id name dob time place).data,
      isHexChar c = true := by
  refine ⟨?_, ?_, ?_⟩
  · unfold generate_profile_id
    rw [hn, hp]
  · simp [generate_profile_id, String.length, List.length_take,
      md5Hexdigest_length]
  · intro c hc
    exact md5Hexdigest_isHexChar _ c (List.take_subset 12 _ hc)

/-- C1 witness: the normalization-stable pair from the spec, at concrete
birth facts. -/
theorem generate_profile_id_normalized_witness :
    generate_profile_id "Jane Doe" "1990-05-15" "14:30" "Mumbai, India"
      = generate_profile_id "  jane doe " "1990-05-15" "14:30"
          "Mumbai, India" ∧
    (generate_profile_id "Jane Doe" "1990-05-15" "14:30"
      "Mumbai, India").length = 12 ∧
    ∀ c ∈ (generate_profile_id "Jane Doe" "1990-05-15" "14:30"
      "Mumbai, India").data, isHexChar c = true :=
  generate_profile_id_normalized "Jane Doe" "  jane doe " "Mumbai, India"
    "Mumbai, India" "1990-05-15" "14:30" (by decide) (by decide)

/-! ## C6 -/

/-- C6 counterexample: with no endpoint configured, `set_active_session`
does not fail fast with a Storage Error as the claim states for all three
operations — it returns a synthetic success dictionary without any network
call. -/
theorem set_active_session_unconfigured_not_error :
    set_active_session none "abc123def456" (.transportError "boom")
      = .ok ⟨some "session_set", some "abc123def456", none⟩ := rfl

/-- C6 amended: `store_profile` and `get_profile` fail fast with a Storage
Error when the endpoint is unconfigured (uniformly in the transport, hence
before any network call), while `set_active_session` instead returns a
synthetic success dictionary; when configured, each of the three operations
wraps a transport failure as a Storage Error carrying the underlying error
text, an error-status response as a Storage Error carrying the status code
and truncated body, and a non-error-status non-JSON body as a Storage
Error with the fixed invalid-JSON message, carrying neither the status
code nor the body text. -/
theorem storage_error_taxonomy :
    (∀ http, store_profile none http
        = .error ⟨"N8N_WEBHOOK_URL required for persistent storage"⟩) ∧
    (∀ http, get_profile none http
        = .error ⟨"N8N_WEBHOOK_URL required for persistent storage"⟩) ∧
    (∀ pid http, set_active_session none pid http
        = .ok ⟨some "session_set", some pid, none⟩) ∧
    (∀ url e pid,
      store_profile (some url) (.transportError e)
          = .error ⟨"Failed to reach Qdrant storage: " ++ e⟩ ∧
      get_profile (some url) (.transportError e)
          = .error ⟨"Failed to reach Qdrant storage: " ++ e⟩ ∧
      set_active_session (some url) pid (.transportError e)
          = .error ⟨"Failed to reach Qdrant storage: " ++ e⟩) ∧
    (∀ url status body json pid, 400 ≤ status →
      store_profile (some url) (.response status body json)
          = .error ⟨"Storage error " ++ toString status ++ ": " ++
              body.take 300⟩ ∧
      get_profile (some url) (.response status body json)
          = .error ⟨"Storage error " ++ toString status ++ ": " ++
              body.take 300⟩ ∧
      set_active_session (some url) pid (.response status body json)
          = .error ⟨"Storage error " ++ toString status ++ ": " ++
              body.take 300⟩) ∧
    (∀ url status body pid, status < 400 →
      store_profile (some url) (.response status body none)
          = .error ⟨"Storage did not return valid JSON"⟩ ∧
      get_profile (some url) (.response status body none)
          = .error ⟨"Storage did not return valid JSON"⟩ ∧
      set_active_session (some url) pid (.response status body none)
          = .error ⟨"Storage did not return valid JSON"⟩) := by
  refine ⟨fun _ => rfl, fun _ => rfl, fun _ _ => rfl, ?_, ?_, ?_⟩
  · exact fun url e pid => ⟨rfl, rfl, rfl⟩
  · intro url status body json pid h
    refine ⟨?_, ?_, ?_⟩ <;>
      simp [store_profile, get_profile, set_active_session, call_n8n, h]
  · intro url status body pid h
    refine ⟨?_, ?_, ?_⟩ <;>
      simp [store_profile, get_profile, set_active_session, call_n8n,
        Nat.not_le.mpr h]

/-- C6 witness: the error-status and non-JSON wrapping evaluated at concrete
responses. -/
theorem storage_error_taxonomy_witness :
    (400 ≤ 500 ∧
      store_profile (some "https://n8n.example/webhook")
        (.response 500 "oops" none)
          = .error ⟨"Storage error " ++ toString 500 ++ ": " ++
              "oops".take 300⟩) ∧
    (200 < 400 ∧
      get_profile (some "https://n8n.example/webhook")
        (.response 200 "<html>" none)
          = .error ⟨"Storage did not return valid JSON"⟩) :=
  ⟨⟨by norm_num,
    (storage_error_taxonomy.2.2.2.2.1 "https://n8n.example/webhook" 500
      "oops" none "p" (by norm_num)).1⟩,
   ⟨by norm_num,
    (storage_error_taxonomy.2.2.2.2.2 "https://n8n.example/webhook" 200
      "<html>" "p" (by norm_num)).2.1⟩⟩

/-! ## C2 -/

/-- C2: with a Remote Store configured, `_get_profile_by_id` returns the
remote profile when `get_profile` succeeds with a profile payload; on any
`get_profile` failure the error is not propagated and the fallback store is
read instead (likewise on success without a payload); and the resolver
returns `none` only when the fallback store also has no entry — it never
raises, being a total function into `Option`. -/
theorem get_profile_by_id_spec (url : String) (http : HttpResult)
    (fb : FallbackStore) (pid : String) :
    (∀ r p, get_profile (some url) http = .ok r → r.profile = some p →
      get_profile_by_id (some url) http fb pid = some p) ∧
    (∀ e, get_profile (some url) http = .error e →
      get_profile_by_id (some url) http fb pid = fb pid) ∧
    (∀ r, get_profile (some url) http = .ok r → r.profile = none →
      get_profile_by_id (some url) http fb pid = fb pid) ∧
    (get_profile_by_id (some url) http fb pid = none → fb pid = none) := by
  refine ⟨?_, ?_, ?_, ?_⟩
  · intro r p hr hp
    simp [get_profile_by_id, hr, hp]
  · intro e he
    simp [get_profile_by_id, he]
  · intro r hr hp
    simp [get_profile_by_id, hr, hp]
  · intro h
    rcases hg : get_profile (some url) http with e | r
    · simpa [get_profile_by_id, hg] using h
    · rcases hp : r.profile with _ | p
      · simpa [get_profile_by_id, hg, hp] using h
      · simp [get_profile_by_id, hg, hp] at h

/-- C2 witness: a successful remote response with a profile payload resolves
directly, evaluated at a concrete response. -/
theorem get_profile_by_id_spec_witness :
    get_profile (some "u")
        (.response 200 "{}"
          (some ⟨none, none, some ⟨"p1", "A", "d", "t", "pl", "c", none⟩⟩))
      = .ok ⟨none, none, some ⟨"p1", "A", "d", "t", "pl", "c", none⟩⟩ ∧
    (⟨none, none, some ⟨"p1", "A", "d", "t", "pl", "c", none⟩⟩ :
        StoreResponse).profile
      = some ⟨"p1", "A", "d", "t", "pl", "c", none⟩ ∧
    get_profile_by_id (some "u")
        (.response 200 "{}"
          (some ⟨none, none, some ⟨"p1", "A", "d", "t", "pl", "c", none⟩⟩))
        (fun _ => none) "p1"
      = some ⟨"p1", "A", "d", "t", "pl", "c", none⟩ :=
  ⟨rfl, rfl,
    (get_profile_by_id_spec "u"
      (.response 200 "{}"
        (some ⟨none, none, some ⟨"p1", "A", "d", "t", "pl", "c", none⟩⟩))
      (fun _ => none) "p1").1 _ _ rfl rfl⟩

/-! ## C3 -/

/-- C3: when the Remote Store is configured but `store_profile` fails,
registration still succeeds, the profile record is written to the fallback
store under the derived id, the reported tier label is the fallback one, and
a subsequent resolve by that id (with the remote read also failing) finds
the profile in the fallback store; moreover, after a successful durable
store the outcome of `set_active_session` is discarded, so it can never
fail registration nor change its result. -/
theorem register_store_failure (url : String)
    (storeHttp setHttp setHttp' getHttp : HttpResult) (client : Bool)
    (ai : String → OpenAIResult) (now : String) (fb : FallbackStore)
    (name dob time place : String) (session_id : Option String)
    (e : McpErr)
    (hs : store_profile (some url) storeHttp = .error e) :
    (∃ r, astro_register_profile (some url) storeHttp setHttp client ai now
        fb name dob time place session_id = .ok r ∧
      r.storage_info
        = "Fallback storage used: " ++ e.message.take 50 ++ "..." ∧
      r.store (generate_profile_id name dob time place)
        = some ⟨generate_profile_id name dob time place, name, dob, time,
            place, now, session_id⟩ ∧
      ∀ e2, get_profile (some url) getHttp = .error e2 →
        get_profile_by_id (some url) getHttp r.store
          (generate_profile_id name dob time place)
          = some ⟨generate_profile_id name dob time place, name, dob, time,
              place, now, session_id⟩) ∧
    (∀ okHttp r0, store_profile (some url) okHttp = .ok r0 →
      astro_register_profile (some url) okHttp setHttp client ai now fb
          name dob time place session_id
        = astro_register_profile (some url) okHttp setHttp' client ai now fb
            name dob time place session_id ∧
      ∃ r1, astro_register_profile (some url) okHttp setHttp client ai now
          fb name dob time place session_id = .ok r1) := by
  constructor
  · simp only [astro_register_profile, hs]
    refine ⟨_, rfl, rfl, ?_, ?_⟩
    · simp [FallbackStore.put]
    · intro e2 he2
      simp [get_profile_by_id, he2, FallbackStore.put]
  · intro okHttp r0 h0
    simp only [astro_register_profile, h0]
    exact ⟨trivial, _, rfl⟩

/-- C3 witness: a transport failure of the store call at concrete inputs;
registration succeeds and reports the fallback tier. -/
theorem register_store_failure_witness :
    store_profile (some "u") (.transportError "down")
      = .error ⟨"Failed to reach Qdrant storage: " ++ "down"⟩ ∧
    ∃ r, astro_register_profile (some "u") (.transportError "down")
        (.transportError "x") true (fun _ => .content "T") "2025-01-01"
        (fun _ => none) "Asha" "1990-05-15" "14:30" "Mumbai" none
          = .ok r ∧
      r.storage_info = "Fallback storage used: " ++
        (McpErr.mk ("Failed to reach Qdrant storage: " ++ "down")).message.take
          50 ++ "..." := by
  refine ⟨rfl, ?_⟩
  obtain ⟨⟨r, hr, hsi, _, _⟩, _⟩ :=
    register_store_failure "u" (.transportError "down") (.transportError "x")
      (.transportError "x") (.transportError "y") true
      (fun _ => .content "T") "2025-01-01" (fun _ => none) "Asha"
      "1990-05-15" "14:30" "Mumbai" none
      ⟨"Failed to reach Qdrant storage: " ++ "down"⟩ rfl
  exact ⟨r, hr, hsi⟩

/-! ## C4 -/

/-- C4: when `astro_ask` is given a (truthy) `profile_id` that resolves, the
insight generator is called with the resolved profile facts plus the
question and timeframe and the result is returned directly; the supplied
birth-fact parameters are universally quantified and absent from the
result, so they have no effect, and the fallback store is returned
unchanged, so no store write happens. -/
theorem ask_profile_id_wins (cfg : Option String)
    (getHttp storeHttp : HttpResult) (client : Bool)
    (ai : String → OpenAIResult) (now : String) (fb : FallbackStore)
    (question : String) (timeframe : Option String) (pid : String)
    (p : Profile) (hpid : pid ≠ "")
    (hres : get_profile_by_id cfg getHttp fb pid = some p) :
    ∀ name dob time place : Option String,
      astro_ask cfg getHttp storeHttp client ai now fb question name dob
        time place timeframe (some pid)
        = .ok ⟨get_astrology_insights client ai p.name p.dob p.time p.place
            (some question) timeframe, fb, none⟩ := by
  intro name dob time place
  have h0 : pid.isEmpty = false := by
    rw [← Bool.not_eq_true, String.isEmpty_iff]
    exact hpid
  have ht : truthy (some pid) = true := by simp [truthy, h0]
  simp [astro_ask, ht, hres]

/-- C4 witness: a stored profile resolved by id at concrete inputs, with
unrelated birth facts supplied and ignored. -/
theorem ask_profile_id_wins_witness :
    "p1" ≠ "" ∧
    get_profile_by_id none (.transportError "x")
      (fun k => if k = "p1" then some ⟨"p1", "A", "d", "t", "pl", "c", none⟩
        else none) "p1" = some ⟨"p1", "A", "d", "t", "pl", "c", none⟩ ∧
    astro_ask none (.transportError "x") (.transportError "y") true
      (fun _ => .content "T") "now"
      (fun k => if k = "p1" then some ⟨"p1", "A", "d", "t", "pl", "c", none⟩
        else none)
      "Q" (some "Other") (some "2000-01-01") (some "09:00") (some "Delhi")
      none (some "p1")
      = .ok ⟨get_astrology_insights true (fun _ => .content "T") "A" "d"
          "t" "pl" (some "Q") none,
        (fun k => if k = "p1" then
          some ⟨"p1", "A", "d", "t", "pl", "c", none⟩ else none), none⟩ :=
  ⟨by decide, by decide,
    ask_profile_id_wins none (.transportError "x") (.transportError "y")
      true (fun _ => .content "T") "now"
      (fun k => if k = "p1" then some ⟨"p1", "A", "d", "t", "pl", "c", none⟩
        else none)
      "Q" none "p1" ⟨"p1", "A", "d", "t", "pl", "c", none⟩ (by decide)
      (by decide) (some "Other") (some "2000-01-01") (some "09:00")
      (some "Delhi")⟩

/-! ## C9 -/

/-- C9: when no profile resolves (the id is absent, empty, or unresolvable)
and the birth facts are incomplete (at least one of the four fields absent
or empty), `astro_ask` returns the fixed static guidance message as a
successful response, with the store unchanged. -/
theorem ask_no_profile_guidance (cfg : Option String)
    (getHttp storeHttp : HttpResult) (client : Bool)
    (ai : String → OpenAIResult) (now : String) (fb : FallbackStore)
    (question : String) (timeframe : Option String)
    (name dob time place profile_id : Option String)
    (hpid : ∀ s, profile_id = some s →
      s = "" ∨ get_profile_by_id cfg getHttp fb s = none)
    (hfacts : truthy name = false ∨ truthy dob = false ∨
      truthy time = false ∨ truthy place = false) :
    astro_ask cfg getHttp storeHttp client ai now fb question name dob time
      place timeframe profile_id = .ok ⟨welcome_message, fb, none⟩ := by
  have hfalse :
      (truthy name && truthy dob && truthy time && truthy place) = false := by
    rcases hfacts with h | h | h | h <;> simp [h]
  rcases profile_id with _ | s
  · simp only [astro_ask, hfalse]
    simp [truthy]
  · rcases hpid s rfl with h | h
    · subst h
      simp only [astro_ask, hfalse]
      simp [truthy]
      exact fun hc => absurd hc (by decide)
    · rcases Bool.eq_false_or_eq_true (truthy (some s)) with hb | hb
      · simp only [astro_ask, hfalse]
        simp [hb, h]
      · simp only [astro_ask, hfalse]
        simp [hb, h]

/-- C9 witness: `ask("test question")` with no id and no facts returns the
guidance message. -/
theorem ask_no_profile_guidance_witness :
    astro_ask none (.transportError "x") (.transportError "y") true
      (fun _ => .content "T") "now" (fun _ => none) "test question" none
      none none none none none
      = .ok ⟨welcome_message, (fun _ => none), none⟩ :=
  ask_no_profile_guidance none (.transportError "x") (.transportError "y")
    true (fun _ => .content "T") "now" (fun _ => none) "test question" none
    none none none none none (by intro s h; cases h) (Or.inl rfl)

/-! ## C5 -/

set_option maxRecDepth 100000 in
/-- C5 counterexample: with the Remote Store not configured, the auto
registration inside `astro_ask` does not report the ephemeral in-memory
tier of register step 4 — it calls `store_profile` unconditionally, whose
fail-fast error routes it through the exception-fallback path, so the
reported tier is the fallback-used label. -/
theorem ask_unconfigured_tier_counterexample :
    (askOut (astro_ask none (.transportError "x") (.transportError "y")
        true (fun _ => .content "T") "2025-01-01T00:00:00" (fun _ => none)
        "What about my career?" (some "Asha Rao") (some "1990-05-15")
        (some "14:30") (some "Mumbai, India") none none)).storage_info
      = some ("Fallback storage used: " ++
          "N8N_WEBHOOK_URL required for persistent storage".take 50 ++
          "...") ∧
    (askOut (astro_ask none (.transportError "x") (.transportError "y")
        true (fun _ => .content "T") "2025-01-01T00:00:00" (fun _ => none)
        "What about my career?" (some "Asha Rao") (some "1990-05-15")
        (some "14:30") (some "Mumbai, India") none none)).storage_info
      ≠ some "In-memory storage (will reset on restart)" := by
  exact ⟨rfl, by decide⟩

/-! ## C7 -/

/-- C7 counterexample: an Insight Generator internal error is not surfaced
as a Tool Error — registration still returns normally, and the generator
renders the failure as an apologetic text instead of raising. -/
theorem register_insight_failure_not_error :
    isOkE (astro_register_profile none (.transportError "x")
        (.transportError "y") true (fun _ => .failure "boom") "2025-01-01"
        (fun _ => none) "Asha" "1990-05-15" "14:30" "Mumbai" none)
      = true ∧
    get_astrology_insights true (fun _ => .failure "boom") "Asha"
        "1990-05-15" "14:30" "Mumbai" none none
      = "Sorry, I'm unable to provide astrological insights at the moment due to a technical issue: " ++ "boom" := by
  constructor
  · rfl
  · rfl

/-- C7 amended: `astro_register_profile` never fails at all — every
configuration and oracle outcome returns normally, because Insight
Generator internal errors are caught inside the generator and rendered as
an apologetic message embedded in the successful summary, never raised as
a Tool Error. -/
theorem register_never_fails :
    (∀ cfg storeHttp setHttp client ai now fb name dob time place
        session_id,
      isOkE (astro_register_profile cfg storeHttp setHttp client ai now fb
        name dob time place session_id) = true) ∧
    (∀ msg name dob time place question timeframe,
      get_astrology_insights true (fun _ => .failure msg) name dob time
          place question timeframe
        = "Sorry, I'm unable to provide astrological insights at the moment due to a technical issue: " ++ msg) := by
  constructor
  · intro cfg storeHttp setHttp client ai now fb name dob time place sid
    rcases cfg with _ | url
    · rfl
    · rcases hst : store_profile (some url) storeHttp with e | r0 <;>
        simp [astro_register_profile, isOkE, hst]
  · intro msg name dob time place question timeframe
    rfl

/-! ## C8 -/

set_option maxRecDepth 100000 in
/-- C8 counterexample: re-registering identical birth facts overwrites the
stored record, including `created_at`, with the timestamp of the second
write — the originally stored `created_at` is not preserved. -/
theorem created_at_overwritten_counterexample :
    (regOut (astro_register_profile none (.transportError "x")
        (.transportError "x") true (fun _ => .content "T")
        "2024-01-01T00:00:00"
        (regOut (astro_register_profile none (.transportError "x")
          (.transportError "x") true (fun _ => .content "T")
          "2023-06-30T12:00:00" (fun _ => none) "Asha Rao" "1990-05-15"
          "14:30" "Mumbai, India" none)).store
        "Asha Rao" "1990-05-15" "14:30" "Mumbai, India" none)).store
      (generate_profile_id "Asha Rao" "1990-05-15" "14:30" "Mumbai, India")
      = some ⟨generate_profile_id "Asha Rao" "1990-05-15" "14:30"
          "Mumbai, India", "Asha Rao", "1990-05-15", "14:30",
          "Mumbai, India", "2024-01-01T00:00:00", none⟩ ∧
    ("2024-01-01T00:00:00" : String) ≠ "2023-06-30T12:00:00" := by
  constructor <;> decide

/-- C8 amended: `created_at` is recomputed at every write: registering the
same birth facts again (same derived id) overwrites the fallback record so
that its `created_at` equals the second call's timestamp, for any first
timestamp. -/
theorem created_at_recomputed_on_rewrite (storeHttp setHttp : HttpResult)
    (client : Bool) (ai : String → OpenAIResult) (now1 now2 : String)
    (fb : FallbackStore) (name dob time place : String)
    (session_id : Option String) :
    (regOut (astro_register_profile none storeHttp setHttp client ai now2
        (regOut (astro_register_profile none storeHttp setHttp client ai
          now1 fb name dob time place session_id)).store
        name dob time place session_id)).store
      (generate_profile_id name dob time place)
      = some ⟨generate_profile_id name dob time place, name, dob, time,
          place, now2, session_id⟩ := by
  simp [astro_register_profile, regOut, FallbackStore.put]

/-- C5 amended: when no profile resolves and all four birth-fact fields are
non-empty, the auto-registration write of `astro_ask` produces exactly the
same fallback-store state as `astro_register_profile` on the same oracles
(with no session id), and the same tier label whenever the Remote Store is
configured; when it is not configured the profile is still written to the
fallback store, but the tier reported by `ask` is the fallback-used label
(derived from the fail-fast storage error) while `register` reports the
ephemeral in-memory label; and the returned text appends a note disclosing
the newly created profile id and the tier used. -/
theorem ask_autoregister_matches_register (cfg : Option String)
    (getHttp storeHttp setHttp : HttpResult) (client : Bool)
    (ai : String → OpenAIResult) (now : String) (fb : FallbackStore)
    (question : String) (timeframe : Option String)
    (n d t p : String) (profile_id : Option String)
    (hn : n ≠ "") (hd : d ≠ "") (htt : t ≠ "") (hp : p ≠ "")
    (hpid : ∀ s, profile_id = some s →
      s = "" ∨ get_profile_by_id cfg getHttp fb s = none) :
    ∃ r r2,
      astro_ask cfg getHttp storeHttp client ai now fb question (some n)
          (some d) (some t) (some p) timeframe profile_id = .ok r ∧
      astro_register_profile cfg storeHttp setHttp client ai now fb n d t
          p none = .ok r2 ∧
      (∀ k, r.store k = r2.store k) ∧
      (∀ url, cfg = some url → r.storage_info = some r2.storage_info) ∧
      (cfg = none →
        r.storage_info = some ("Fallback storage used: " ++
          "N8N_WEBHOOK_URL required for persistent storage".take 50 ++
          "...") ∧
        r2.storage_info = "In-memory storage (will reset on restart)") ∧
      r.text = get_astrology_insights client ai n d t p (some question)
          timeframe ++
        ("\n\n---\nProfile Created! Your birth details have been saved for future questions. Profile ID: `" ++
          generate_profile_id n d t p ++ "`\n**Storage**: " ++
          r.storage_info.getD "") := by
  have hc : (truthy (some n) && truthy (some d) && truthy (some t) &&
      truthy (some p)) = true := by
    rw [truthy_some_of_ne hn, truthy_some_of_ne hd, truthy_some_of_ne htt,
      truthy_some_of_ne hp]
    rfl
  have hbranch : astro_ask cfg getHttp storeHttp client ai now fb question
      (some n) (some d) (some t) (some p) timeframe profile_id
      = astro_ask cfg getHttp storeHttp client ai now fb question (some n)
        (some d) (some t) (some p) timeframe none := by
    rcases profile_id with _ | s
    · rfl
    · rcases hpid s rfl with h | h
      · subst h
        have hb2 : ("" : String).isEmpty = true := rfl
        simp [astro_ask, truthy, hb2]
      · rcases Bool.eq_false_or_eq_true (truthy (some s)) with hb | hb
        · have hb2 : s.isEmpty = false := by simpa [truthy] using hb
          simp [astro_ask, truthy, hb2, h]
        · have hb2 : s.isEmpty = true := by simpa [truthy] using hb
          simp [astro_ask, truthy, hb2]
  rw [hbranch]
  have e1 : n.isEmpty = false := by
    rw [← Bool.not_eq_true, String.isEmpty_iff]
    exact hn
  have e2 : d.isEmpty = false := by
    rw [← Bool.not_eq_true, String.isEmpty_iff]
    exact hd
  have e3 : t.isEmpty = false := by
    rw [← Bool.not_eq_true, String.isEmpty_iff]
    exact htt
  have e4 : p.isEmpty = false := by
    rw [← Bool.not_eq_true, String.isEmpty_iff]
    exact hp
  refine ⟨askOut (astro_ask cfg getHttp storeHttp client ai now fb question
      (some n) (some d) (some t) (some p) timeframe none),
    regOut (astro_register_profile cfg storeHttp setHttp client ai now fb
      n d t p none), ?_, ?_, ?_, ?_, ?_, ?_⟩
  · rcases cfg with _ | url
    · simp [astro_ask, truthy, e1, e2, e3, e4, askOut, store_profile]
    · rcases hst : store_profile (some url) storeHttp with e | r0 <;>
        simp [astro_ask, truthy, e1, e2, e3, e4, askOut, hst]
  · rcases cfg with _ | url
    · simp [astro_register_profile, regOut]
    · rcases hst : store_profile (some url) storeHttp with e | r0 <;>
        simp [astro_register_profile, regOut, hst]
  · intro k
    rcases cfg with _ | url
    · simp [astro_ask, astro_register_profile, truthy, e1, e2, e3, e4,
        askOut, regOut, store_profile]
    · rcases hst : store_profile (some url) storeHttp with e | r0 <;>
        simp [astro_ask, astro_register_profile, truthy, e1, e2, e3, e4,
          askOut, regOut, hst]
  · intro url h
    subst h
    rcases hst : store_profile (some url) storeHttp with e | r0 <;>
      simp [astro_ask, astro_register_profile, truthy, e1, e2, e3, e4,
        askOut, regOut, hst]
  · intro h
    subst h
    simp [astro_ask, astro_register_profile, truthy, e1, e2, e3, e4,
      askOut, regOut, store_profile]
  · rcases cfg with _ | url
    · simp [astro_ask, truthy, e1, e2, e3, e4, askOut, store_profile]
    · rcases hst : store_profile (some url) storeHttp with e | r0 <;>
        simp [astro_ask, truthy, e1, e2, e3, e4, askOut, hst]

/-- C5 witness: concrete non-empty facts with no configured Remote Store;
the write lands in the fallback store of both operations while the tiers
differ as stated. -/
theorem ask_autoregister_matches_register_witness :
    ("Asha Rao" : String) ≠ "" ∧
    ∃ r r2,
      astro_ask none (.transportError "x") (.transportError "y") true
          (fun _ => .content "T") "2025-01-01T00:00:00" (fun _ => none)
          "What about my career?" (some "Asha Rao") (some "1990-05-15")
          (some "14:30") (some "Mumbai, India") none none = .ok r ∧
      astro_register_profile none (.transportError "y") (.transportError
          "z") true (fun _ => .content "T") "2025-01-01T00:00:00"
          (fun _ => none) "Asha Rao" "1990-05-15" "14:30" "Mumbai, India"
          none = .ok r2 ∧
      (∀ k, r.store k = r2.store k) ∧
      r.storage_info = some ("Fallback storage used: " ++
        "N8N_WEBHOOK_URL required for persistent storage".take 50 ++
        "...") ∧
      r2.storage_info = "In-memory storage (will reset on restart)" := by
  refine ⟨by decide, ?_⟩
  obtain ⟨r, r2, h1, h2, h3, _, h5, _⟩ :=
    ask_autoregister_matches_register none (.transportError "x")
      (.transportError "y") (.transportError "z") true
      (fun _ => .content "T") "2025-01-01T00:00:00" (fun _ => none)
      "What about my career?" none "Asha Rao" "1990-05-15" "14:30"
      "Mumbai, India" none (by decide) (by decide) (by decide) (by decide)
      (by intro s h; cases h)
  exact ⟨r, r2, h1, h2, h3, (h5 rfl).1, (h5 rfl).2⟩

/-! ## C10 -/

theorem truthy_none : truthy none = false := rfl

/-- C10: every fallback-store write performed by registration or by the
auto-registration inside ask assigns only the derived profile id: any other
key reads back unchanged after either operation, under every configuration
and oracle outcome. -/
theorem fallback_write_frame :
    (∀ cfg storeHttp setHttp client ai now fb name dob time place
        session_id k,
      k ≠ generate_profile_id name dob time place →
      (regOut (astro_register_profile cfg storeHttp setHttp client ai now
        fb name dob time place session_id)).store k = fb k) ∧
    (∀ cfg getHttp storeHttp client ai now fb question name dob time place
        timeframe profile_id k,
      k ≠ generate_profile_id (name.getD "") (dob.getD "") (time.getD "")
        (place.getD "") →
      (askOut (astro_ask cfg getHttp storeHttp client ai now fb question
        name dob time place timeframe profile_id)).store k = fb k) := by
  constructor
  · intro cfg storeHttp setHttp client ai now fb name dob time place sid
      k hk
    rcases cfg with _ | url
    · simp [astro_register_profile, regOut, FallbackStore.put, hk]
    · rcases hst : store_profile (some url) storeHttp with e | r0 <;>
        simp [astro_register_profile, regOut, FallbackStore.put, hst, hk]
  · intro cfg getHttp storeHttp client ai now fb question name dob time
      place timeframe profile_id k hk
    have hafter : ∀ hcfg hsto,
        (askOut (astro_ask hcfg getHttp hsto client ai now fb question
          name dob time place timeframe none)).store k = fb k := by
      intro hcfg hsto
      rcases Bool.eq_false_or_eq_true
          (truthy name && truthy dob && truthy time && truthy place) with
        hcond | hcond
      · simp only [Bool.and_eq_true] at hcond
        obtain ⟨⟨⟨h1, h2⟩, h3⟩, h4⟩ := hcond
        rcases hcfg with _ | url
        · simp [astro_ask, truthy_none, h1, h2, h3, h4, askOut,
            store_profile, FallbackStore.put, hk]
        · rcases hst : store_profile (some url) hsto with e | r0 <;>
            simp [astro_ask, truthy_none, h1, h2, h3, h4, askOut, hst,
              FallbackStore.put, hk]
      · have hnot : ¬(((truthy name = true ∧ truthy dob = true) ∧
            truthy time = true) ∧ truthy place = true) := by
          intro hcontra
          rw [hcontra.1.1.1, hcontra.1.1.2, hcontra.1.2, hcontra.2]
            at hcond
          simp at hcond
        simp [astro_ask, truthy_none, hnot, askOut]
    rcases profile_id with _ | s
    · exact hafter cfg storeHttp
    · rcases Bool.eq_false_or_eq_true (truthy (some s)) with hb | hb
      · rcases hres : get_profile_by_id cfg getHttp fb s with _ | prof
        · have heq : astro_ask cfg getHttp storeHttp client ai now fb
              question name dob time place timeframe (some s)
              = astro_ask cfg getHttp storeHttp client ai now fb question
                name dob time place timeframe none := by
            simp [astro_ask, hb, hres, truthy_none]
          rw [heq]
          exact hafter cfg storeHttp
        · simp [astro_ask, hb, hres, askOut]
      · have heq : astro_ask cfg getHttp storeHttp client ai now fb
            question name dob time place timeframe (some s)
            = astro_ask cfg getHttp storeHttp client ai now fb question
              name dob time place timeframe none := by
          simp [astro_ask, hb, truthy_none]
        rw [heq]
        exact hafter cfg storeHttp

set_option maxRecDepth 100000 in
/-- C10 witness: a concrete unrelated key is unchanged by both a register
write and an ask auto-registration write. -/
theorem fallback_write_frame_witness :
    ("other" : String) ≠ generate_profile_id "Asha" "1990-05-15" "14:30"
      "Mumbai" ∧
    (regOut (astro_register_profile none (.transportError "x")
        (.transportError "y") true (fun _ => .content "T") "now"
        (fun _ => none) "Asha" "1990-05-15" "14:30" "Mumbai" none)).store
      "other" = none ∧
    (askOut (astro_ask none (.transportError "x") (.transportError "y")
        true (fun _ => .content "T") "now" (fun _ => none) "Q"
        (some "Asha") (some "1990-05-15") (some "14:30") (some "Mumbai")
        none none)).store "other" = none := by
  have hk : ("other" : String) ≠ generate_profile_id "Asha" "1990-05-15"
      "14:30" "Mumbai" := by decide
  exact ⟨hk,
    fallback_write_frame.1 none (.transportError "x") (.transportError "y")
      true (fun _ => .content "T") "now" (fun _ => none) "Asha"
      "1990-05-15" "14:30" "Mumbai" none "other" hk,
    fallback_write_frame.2 none (.transportError "x") (.transportError "y")
      true (fun _ => .content "T") "now" (fun _ => none) "Q" (some "Asha")
      (some "1990-05-15") (some "14:30") (some "Mumbai") none none "other"
      hk⟩
